import Mathlib

/-!
Verification development for the SimpleDHT library (winlinvip/simple-dht).

The repository ships `src/SimpleDHT.h`: the outcome constants, the pin
configuration state (`pin`, and on AVR the cached `bitmask`/`port`), the
constructors, `setPin`, and the inline pin-override overloads of `read` /
`read2`.  The bodies of the sampling state machine (`sample`, `parse`,
`bits2byte`, the timing primitives and the checksum/decode pipeline) live in
the implementation file that is not part of the sources here; those are
modelled from the specification (spec.md) and each such definition carries a
doc comment saying so.

Machine integers are modelled as `Nat` (bytes, with explicit `% 256` where
wrap-around matters) and `Int` (the C `int` pin and error codes); the
fractional DHT22 decode is modelled over `ℚ` (the decimal values
`x / 10.0` are exact there).
-/

/-! ## Outcome codes (src/SimpleDHT.h, lines 30-45) -/

/-- `#define SimpleDHTErrSuccess 0` -/
def SimpleDHTErrSuccess : Int := 0

/-- `#define SimpleDHTErrStartLow 100` -/
def SimpleDHTErrStartLow : Int := 100

/-- `#define SimpleDHTErrStartHigh 101` -/
def SimpleDHTErrStartHigh : Int := 101

/-- `#define SimpleDHTErrDataLow 102` -/
def SimpleDHTErrDataLow : Int := 102

/-- `#define SimpleDHTErrDataRead 103` -/
def SimpleDHTErrDataRead : Int := 103

/-- `#define SimpleDHTErrDataEOF 104` -/
def SimpleDHTErrDataEOF : Int := 104

/-- `#define SimpleDHTErrDataChecksum 105` -/
def SimpleDHTErrDataChecksum : Int := 105

/-- `#define SimpleDHTErrZeroSamples 106` -/
def SimpleDHTErrZeroSamples : Int := 106

/-- The closed set of outcome codes of a read attempt (src/SimpleDHT.h,
lines 30-45). -/
def outcomeCodes : List Int :=
  [SimpleDHTErrSuccess, SimpleDHTErrStartLow, SimpleDHTErrStartHigh,
   SimpleDHTErrDataLow, SimpleDHTErrDataRead, SimpleDHTErrDataEOF,
   SimpleDHTErrDataChecksum, SimpleDHTErrZeroSamples]

/-! ## Pin configuration state (src/SimpleDHT.h, lines 47-84) -/

/-- The mutable state of a `SimpleDHT` object: the configured `pin`
(`int pin = -1;`, line 49) and, on AVR targets, the cached low-level pin
descriptors (`uint8_t bitmask = 0xFF, port = 0xFF;`, lines 55-56). -/
structure DHTState where
  pin : Int
  bitmask : Nat
  port : Nat
  deriving DecidableEq, Repr

/-- The state of a freshly declared object before the constructor body runs:
the in-class member initialisers `pin = -1`, `bitmask = 0xFF`, `port = 0xFF`. -/
def defaultDHTState : DHTState :=
  { pin := -1, bitmask := 0xFF, port := 0xFF }

/-- `SimpleDHT::setPin` (src/SimpleDHT.h, lines 67-74): stores the pin and,
on AVR, re-derives the cached `bitmask` and `port` via the platform maps
`digitalPinToBitMask` / `digitalPinToPort` (here abstract parameters
`dbm` / `dpp`, since they are platform macros external to the library). -/
def setPin (dbm dpp : Int → Nat) (_s : DHTState) (p : Int) : DHTState :=
  { pin := p, bitmask := dbm p, port := dpp p }

/-- The constructor `SimpleDHT(int pin)` (src/SimpleDHT.h, lines 61-63):
member initialisers run, then the body calls `setPin(pin)`.  The derived
constructors `SimpleDHT11(int pin)` / `SimpleDHT22(int pin)` (lines 168-170
and 202-204) just forward to this one. -/
def mkSimpleDHT (dbm dpp : Int → Nat) (p : Int) : DHTState :=
  setPin dbm dpp defaultDHTState p

/-! ## Sampling state machine (modelled from the spec; the implementation
file is not among the sources) -/

/-- Modelled from the spec: the observable behaviour of the single wire
during one read attempt, abstracting the GPIO collaborator of spec §6.
Missing code: the bodies of `confirm`, `levelTime`, `levelTimePrecise` and
`sample`.  `startLowOk`/`startHighOk`: whether the sensor's two
acknowledgement pulses arrive within their bounded waits (spec §4.2 steps
2-3).  `marker i`: whether bit `i`'s low start marker arrives (spec §4.3
step 1).  `pulse i`: the measured duration in µs of bit `i`'s high pulse,
`none` when it never ends within the timeout (spec §4.3 step 2).
`eofIdle`: whether the line is back in the idle HIGH state after the 40
bits (spec §4.3, `DataEOF`). -/
structure LineTrace where
  startLowOk : Bool
  startHighOk : Bool
  marker : Fin 40 → Bool
  pulse : Fin 40 → Option Nat
  eofIdle : Bool

/-- Modelled from the spec: the fixed high-pulse duration threshold, spec
§4.3 step 3 ("below a fixed threshold, canonically 40µs").  Missing code:
the constant in the bit-read loop of `sample`. -/
def pulseThreshold : Nat := 40

/-- Modelled from the spec: bit classification, spec §4.3 step 3 ("short
pulse ... below a fixed threshold ... bit 0; long pulse ... bit 1").  A
duration of exactly the threshold is not longer than it, so it classifies
as bit 0: bit 1 requires a strictly longer pulse.  Missing code: the
comparison in the bit-read loop of `sample`. -/
def classifyBit (t : Nat) : Nat :=
  if pulseThreshold < t then 1 else 0

/-- Modelled from the spec: one iteration of the bit sampler, spec §4.3
steps 1-3.  Missing code: the per-bit loop body of `sample`. -/
def sampleBit (tr : LineTrace) (i : Fin 40) : Except Int Nat :=
  if tr.marker i = false then Except.error SimpleDHTErrDataLow
  else
    match tr.pulse i with
    | none => Except.error SimpleDHTErrDataRead
    | some t => Except.ok (classifyBit t)

/-- Modelled from the spec: the 40-iteration bit loop, spec §4.3, aborting
at the first per-bit failure (spec §7: "every internal primitive failure
immediately aborts the read").  Missing code: the bit loop of `sample`. -/
def collectBits (tr : LineTrace) : List (Fin 40) → Except Int (List Nat)
  | [] => Except.ok []
  | i :: is =>
    match sampleBit tr i with
    | Except.error e => Except.error e
    | Except.ok b =>
      match collectBits tr is with
      | Except.error e => Except.error e
      | Except.ok bs => Except.ok (b :: bs)

/-- Modelled from the spec: `bits2byte` (declared at src/SimpleDHT.h, line
134), packing 8 bits into a byte most-significant-bit first (spec §4.3
step 4).  Missing code: the body of `bits2byte`. -/
def bits2byte (bits : List Nat) : Nat :=
  bits.foldl (fun acc b => 2 * acc + b) 0

/-- The five raw bytes of one sample:
`[humidity_int, humidity_frac, temp_int, temp_frac, checksum]` (spec §3,
RawSample). -/
structure RawSample where
  b0 : Nat
  b1 : Nat
  b2 : Nat
  b3 : Nat
  b4 : Nat
  deriving DecidableEq, Repr

/-- Modelled from the spec: grouping the 40 sampled bits into 5 bytes
(spec §3, §4.3 step 4).  Missing code: the byte-grouping in `sample`. -/
def bytesOfBits (bits : List Nat) : RawSample :=
  { b0 := bits2byte (bits.take 8)
  , b1 := bits2byte ((bits.drop 8).take 8)
  , b2 := bits2byte ((bits.drop 16).take 8)
  , b3 := bits2byte ((bits.drop 24).take 8)
  , b4 := bits2byte ((bits.drop 32).take 8) }

/-- Modelled from the spec: `sample` (declared at src/SimpleDHT.h, lines
141, 180, 214): start sequence (spec §4.2), 40-bit sampling (spec §4.3),
end-of-frame check, yielding the 5 raw bytes or the specific failure. -/
def sample (tr : LineTrace) : Except Int RawSample :=
  if tr.startLowOk = false then Except.error SimpleDHTErrStartLow
  else if tr.startHighOk = false then Except.error SimpleDHTErrStartHigh
  else
    match collectBits tr (List.finRange 40) with
    | Except.error e => Except.error e
    | Except.ok bits =>
      if tr.eofIdle = false then Except.error SimpleDHTErrDataEOF
      else Except.ok (bytesOfBits bits)

/-! ## Checksum and decoding (modelled from the spec) -/

/-- Modelled from the spec: the checksum validator, spec §4.4:
`bytes[4] == (bytes[0] + bytes[1] + bytes[2] + bytes[3]) mod 256`.
Missing code: the checksum comparison in `read2`. -/
def verifyChecksum (s : RawSample) : Bool :=
  s.b4 == (s.b0 + s.b1 + s.b2 + s.b3) % 256

/-- Modelled from the spec: the all-zero-sample guard, spec §4.3 edge case
("if all 5 resulting bytes are zero ... `ZeroSamples`").  Missing code:
the zero check in `read2`. -/
def isZeroSample (s : RawSample) : Bool :=
  s.b0 == 0 && s.b1 == 0 && s.b2 == 0 && s.b3 == 0 && s.b4 == 0

/-- Modelled from the spec: `parse` (declared at src/SimpleDHT.h, line 145),
the CoarseVariant decoder of spec §4.5: temperature = bytes[2], humidity =
bytes[0], no sign handling.  Returned as (temperature, humidity), the order
of the output parameters. -/
def parse (s : RawSample) : Nat × Nat :=
  (s.b2, s.b0)

/-- Modelled from the spec: the FineVariant humidity decode, spec §4.5:
`(bytes[0] << 8 | bytes[1]) / 10.0` as percent.  Missing code: the body of
`SimpleDHT22::read2`. -/
def fineHumidity (s : RawSample) : ℚ :=
  (((s.b0 <<< 8) ||| s.b1 : Nat) : ℚ) / 10

/-- Modelled from the spec: the FineVariant temperature decode, spec §4.5:
the integer byte's high bit is a sign flag; magnitude
`((bytes[2] & 0x7F) << 8 | bytes[3]) / 10.0` in Celsius, negated when the
flag is set.  Missing code: the body of `SimpleDHT22::read2`. -/
def fineTemperature (s : RawSample) : ℚ :=
  let mag : ℚ := (((((s.b2 &&& 0x7F) <<< 8) ||| s.b3 : Nat)) : ℚ) / 10
  if s.b2 &&& 0x80 ≠ 0 then -mag else mag

/-- Modelled from the spec: post-sampling processing of the coarse (DHT11)
read path: checksum validation (spec §4.4, control flow §2), the all-zero
guard (spec §4.3), then the CoarseVariant decode (spec §4.5).  Missing
code: the body of `SimpleDHT::read` / `SimpleDHT11::read2` after
`sample`. -/
def processDHT11 (s : RawSample) : Except Int (Nat × Nat) :=
  if verifyChecksum s = false then Except.error SimpleDHTErrDataChecksum
  else if isZeroSample s = true then Except.error SimpleDHTErrZeroSamples
  else Except.ok (parse s)

/-- Modelled from the spec: post-sampling processing of the fine (DHT22)
read path: checksum validation, the all-zero guard, then the FineVariant
decode, as (temperature, humidity).  Missing code: the body of
`SimpleDHT22::read2` after `sample`. -/
def processDHT22 (s : RawSample) : Except Int (ℚ × ℚ) :=
  if verifyChecksum s = false then Except.error SimpleDHTErrDataChecksum
  else if isZeroSample s = true then Except.error SimpleDHTErrZeroSamples
  else Except.ok (fineTemperature s, fineHumidity s)

/-- Modelled from the spec: the full coarse read attempt
(`SimpleDHT::read(byte*, byte*, byte[40])`, declared at src/SimpleDHT.h,
line 95): sampling then processing; any stage failure aborts with its
specific code (spec §7). -/
def dht11Read (tr : LineTrace) : Except Int (Nat × Nat) :=
  match sample tr with
  | Except.error e => Except.error e
  | Except.ok s => processDHT11 s

/-- Modelled from the spec: `SimpleDHT11::read2` (declared at
src/SimpleDHT.h, line 172): for the coarse variant the fine accessor just
returns the coarse reading (spec §4.5: "behaviorally identical"). -/
def dht11Read2 (tr : LineTrace) : Except Int (ℚ × ℚ) :=
  match dht11Read tr with
  | Except.error e => Except.error e
  | Except.ok p => Except.ok ((p.1 : ℚ), (p.2 : ℚ))

/-- Modelled from the spec: `SimpleDHT22::read2` (declared at
src/SimpleDHT.h, line 206): sampling then fine processing. -/
def dht22Read (tr : LineTrace) : Except Int (ℚ × ℚ) :=
  match sample tr with
  | Except.error e => Except.error e
  | Except.ok s => processDHT22 s

/-- The outcome code a read attempt surfaces to the caller: the error code
on failure, `SimpleDHTErrSuccess` on success. -/
def resultCode {α : Type} : Except Int α → Int
  | Except.ok _ => SimpleDHTErrSuccess
  | Except.error e => e

/-! ## Pin-override overloads (src/SimpleDHT.h, lines 96-100, 173-177,
207-211) -/

/-- `SimpleDHT::read(int pin, byte*, byte*, byte[40])` (src/SimpleDHT.h,
lines 96-100).  The body is exactly `setPin(pin); read(...);` — it calls
`setPin` with the override, runs the underlying read attempt (whose
OperationResult and outputs are the second component), and then reaches
the closing brace of the `int`-returning function without any `return`
statement, so no defined `int` value is returned to the caller: the third
component, the value the caller receives, is `none`.  The underlying
plain `read` is modelled from the spec (it does not touch the pin
configuration; spec §6 makes the pin mutable only via the explicit
change-pin operation). -/
def readWithPin (dbm dpp : Int → Nat) (s : DHTState) (p : Int)
    (tr : LineTrace) : DHTState × Except Int (Nat × Nat) × Option Int :=
  (setPin dbm dpp s p, dht11Read tr, none)

/-- `SimpleDHT11::read2(int pin, float*, float*, byte[40])`
(src/SimpleDHT.h, lines 173-177): `setPin(pin); read2(...);`, again with
no `return` statement, so the caller receives no defined `int`. -/
def read2WithPin11 (dbm dpp : Int → Nat) (s : DHTState) (p : Int)
    (tr : LineTrace) : DHTState × Except Int (ℚ × ℚ) × Option Int :=
  (setPin dbm dpp s p, dht11Read2 tr, none)

/-- `SimpleDHT22::read2(int pin, float*, float*, byte[40])`
(src/SimpleDHT.h, lines 207-211): `setPin(pin); read2(...);`, again with
no `return` statement, so the caller receives no defined `int`. -/
def read2WithPin22 (dbm dpp : Int → Nat) (s : DHTState) (p : Int)
    (tr : LineTrace) : DHTState × Except Int (ℚ × ℚ) × Option Int :=
  (setPin dbm dpp s p, dht22Read tr, none)

/-! ## Concrete traces used as test vectors -/

/-- The 40 bits encoding the bytes `[35, 0, 27, 0, 62]` of spec §8,
most-significant-bit first. -/
def goodBits : List Nat :=
  [0,0,1,0,0,0,1,1, 0,0,0,0,0,0,0,0, 0,0,0,1,1,0,1,1,
   0,0,0,0,0,0,0,0, 0,0,1,1,1,1,1,0]

/-- A trace of a fully successful read whose pulses encode
`[35, 0, 27, 0, 62]`: every marker arrives, a bit 1 is a 70µs pulse and a
bit 0 a 20µs pulse, and the line idles HIGH at the end. -/
def goodTrace : LineTrace :=
  { startLowOk := true
  , startHighOk := true
  , marker := fun _ => true
  , pulse := fun i => some (if goodBits.getD i.val 0 = 1 then 70 else 20)
  , eofIdle := true }

/-- A trace of a protocol-complete read whose 40 pulses are all short, so
every sampled bit is 0 and the bytes are `[0, 0, 0, 0, 0]`. -/
def zeroTrace : LineTrace :=
  { startLowOk := true
  , startHighOk := true
  , marker := fun _ => true
  , pulse := fun _ => some 20
  , eofIdle := true }

/-! ## Helper lemmas -/

/-- Combining a left-shifted byte with a low byte below 256 is plain
arithmetic: `(a <<< 8) ||| b = 256 * a + b`. -/
lemma shiftLeft8_or_eq (a b : Nat) (hb : b < 256) :
    (a <<< 8) ||| b = 256 * a + b := by
  have hb' : b < 2 ^ 8 := lt_of_lt_of_le hb (by norm_num)
  have h := Nat.mul_add_lt_is_or hb' a
  rw [Nat.shiftLeft_eq, Nat.mul_comm a (2 ^ 8), ← h]

/-- A failing bit sample fails with `DataLow` or `DataRead` only. -/
lemma sampleBit_error_cases (tr : LineTrace) (i : Fin 40) (e : Int)
    (h : sampleBit tr i = Except.error e) :
    e = SimpleDHTErrDataLow ∨ e = SimpleDHTErrDataRead := by
  unfold sampleBit at h
  split at h
  · simp_all
  · split at h <;> simp_all

/-- A failing bit loop fails with `DataLow` or `DataRead` only. -/
lemma collectBits_error_cases (tr : LineTrace) (l : List (Fin 40)) (e : Int)
    (h : collectBits tr l = Except.error e) :
    e = SimpleDHTErrDataLow ∨ e = SimpleDHTErrDataRead := by
  induction l with
  | nil => simp [collectBits] at h
  | cons i is ih =>
    unfold collectBits at h
    cases hb : sampleBit tr i with
    | error e2 =>
      rw [hb] at h
      simp only [Except.error.injEq] at h
      exact h ▸ sampleBit_error_cases tr i e2 hb
    | ok b =>
      rw [hb] at h
      cases hc : collectBits tr is with
      | error e2 =>
        rw [hc] at h
        simp only [Except.error.injEq] at h
        exact ih (h ▸ hc)
      | ok bs => rw [hc] at h; simp at h

/-- A failing sampling stage fails with one of the five protocol error
codes. -/
lemma sample_error_cases (tr : LineTrace) (e : Int)
    (h : sample tr = Except.error e) :
    e = SimpleDHTErrStartLow ∨ e = SimpleDHTErrStartHigh ∨
    e = SimpleDHTErrDataLow ∨ e = SimpleDHTErrDataRead ∨
    e = SimpleDHTErrDataEOF := by
  unfold sample at h
  split at h
  · simp_all
  · split at h
    · simp_all
    · cases hc : collectBits tr (List.finRange 40) with
      | error e2 =>
        rw [hc] at h
        simp only [Except.error.injEq] at h
        rcases h ▸ collectBits_error_cases tr _ e2 hc with h' | h' <;> simp [h']
      | ok bits =>
        rw [hc] at h
        split at h
        · simp_all
        · split at h <;> simp_all

/-- The coarse processing stage surfaces Success, ChecksumMismatch, or
ZeroSamples. -/
lemma processDHT11_code_cases (s : RawSample) :
    resultCode (processDHT11 s) = SimpleDHTErrSuccess ∨
    resultCode (processDHT11 s) = SimpleDHTErrDataChecksum ∨
    resultCode (processDHT11 s) = SimpleDHTErrZeroSamples := by
  unfold processDHT11
  split
  · simp [resultCode]
  · split <;> simp [resultCode]

/-- The fine processing stage surfaces Success, ChecksumMismatch, or
ZeroSamples. -/
lemma processDHT22_code_cases (s : RawSample) :
    resultCode (processDHT22 s) = SimpleDHTErrSuccess ∨
    resultCode (processDHT22 s) = SimpleDHTErrDataChecksum ∨
    resultCode (processDHT22 s) = SimpleDHTErrZeroSamples := by
  unfold processDHT22
  split
  · simp [resultCode]
  · split <;> simp [resultCode]

/-- The coarse read's outcome code lies in the closed outcome set. -/
lemma dht11Read_code_mem (tr : LineTrace) :
    resultCode (dht11Read tr) ∈ outcomeCodes := by
  unfold dht11Read
  cases hs : sample tr with
  | error e =>
    rcases sample_error_cases tr e hs with h|h|h|h|h <;>
      simp [resultCode, h, outcomeCodes]
  | ok s =>
    rcases processDHT11_code_cases s with h|h|h <;> rw [h] <;>
      simp [outcomeCodes]

/-- The coarse fine-accessor surfaces the same outcome code as the coarse
read. -/
lemma dht11Read2_code_eq (tr : LineTrace) :
    resultCode (dht11Read2 tr) = resultCode (dht11Read tr) := by
  unfold dht11Read2
  cases h : dht11Read tr <;> simp [resultCode]

/-- The fine read's outcome code lies in the closed outcome set. -/
lemma dht22Read_code_mem (tr : LineTrace) :
    resultCode (dht22Read tr) ∈ outcomeCodes := by
  unfold dht22Read
  cases hs : sample tr with
  | error e =>
    rcases sample_error_cases tr e hs with h|h|h|h|h <;>
      simp [resultCode, h, outcomeCodes]
  | ok s =>
    rcases processDHT22_code_cases s with h|h|h <;> rw [h] <;>
      simp [outcomeCodes]

/-! ## Claim theorems -/

/-- C1: for every 5-byte sample, checksum validation succeeds iff
`bytes[4] = (bytes[0] + bytes[1] + bytes[2] + bytes[3]) mod 256`; on any
mismatch both read paths fail with `ChecksumMismatch`, so no physical
temperature or humidity is computed from the sample, and a full read whose
sampled bytes mismatch surfaces `ChecksumMismatch`. -/
theorem claim_C1_checksum :
    (∀ s : RawSample,
      verifyChecksum s = true ↔ s.b4 = (s.b0 + s.b1 + s.b2 + s.b3) % 256)
    ∧ (∀ s : RawSample, verifyChecksum s = false →
        processDHT11 s = Except.error SimpleDHTErrDataChecksum
        ∧ processDHT22 s = Except.error SimpleDHTErrDataChecksum)
    ∧ (∀ tr : LineTrace, ∀ s : RawSample, sample tr = Except.ok s →
        verifyChecksum s = false →
        dht11Read tr = Except.error SimpleDHTErrDataChecksum
        ∧ dht22Read tr = Except.error SimpleDHTErrDataChecksum) := by
  refine ⟨fun s => ?_, fun s h => ?_, fun tr s hs h => ?_⟩
  · simp [verifyChecksum]
  · simp [processDHT11, processDHT22, h]
  · constructor
    · unfold dht11Read
      rw [hs]
      simp [processDHT11, h]
    · unfold dht22Read
      rw [hs]
      simp [processDHT22, h]

/-- C1 witness: the sample `[1, 2, 3, 4, 5]` mismatches (the byte sum is
10 mod 256, not 5) and is rejected with `ChecksumMismatch`. -/
theorem claim_C1_checksum_witness :
    processDHT11 ⟨1, 2, 3, 4, 5⟩ = Except.error SimpleDHTErrDataChecksum :=
  (claim_C1_checksum.2.1 ⟨1, 2, 3, 4, 5⟩ (by decide)).1

/-- C2 (the code at the named lines, evaluated): the pin-override
overloads `SimpleDHT::read(pin, ...)`, `SimpleDHT11::read2(pin, ...)` and
`SimpleDHT22::read2(pin, ...)` never return a defined `int` value — their
bodies end without a `return` statement — even on a fully successful
attempt whose underlying OperationResult is `SimpleDHTErrSuccess`. -/
theorem claim_C2_return_value_dropped :
    (readWithPin (fun _ => 0) (fun _ => 0) defaultDHTState 2 goodTrace).2.2
      = none
    ∧ (read2WithPin11 (fun _ => 0) (fun _ => 0) defaultDHTState 2
        goodTrace).2.2 = none
    ∧ (read2WithPin22 (fun _ => 0) (fun _ => 0) defaultDHTState 2
        goodTrace).2.2 = none
    ∧ ((readWithPin (fun _ => 0) (fun _ => 0) defaultDHTState 2
        goodTrace).2.2).isSome = false
    ∧ resultCode (dht11Read goodTrace) = SimpleDHTErrSuccess
    ∧ resultCode (dht22Read goodTrace) = SimpleDHTErrSuccess := by
  refine ⟨rfl, rfl, rfl, rfl, ?_, ?_⟩ <;> rfl

/-- C3: the fine (DHT22) decode — humidity is
`((bytes[0] << 8) | bytes[1]) / 10` percent; temperature magnitude is
`(((bytes[2] & 0x7F) << 8) | bytes[3]) / 10` Celsius, negated exactly when
the high bit of `bytes[2]` is set; and the concrete temperature bytes
`0x85, 0x01` decode to `-128.1` °C. -/
theorem claim_C3_fine_decode :
    (∀ s : RawSample, s.b1 < 256 →
      fineHumidity s = ((256 * s.b0 + s.b1 : Nat) : ℚ) / 10)
    ∧ (∀ s : RawSample, s.b3 < 256 → s.b2 &&& 0x80 ≠ 0 →
      fineTemperature s = -(((256 * (s.b2 &&& 0x7F) + s.b3 : Nat) : ℚ) / 10))
    ∧ (∀ s : RawSample, s.b3 < 256 → s.b2 &&& 0x80 = 0 →
      fineTemperature s = ((256 * (s.b2 &&& 0x7F) + s.b3 : Nat) : ℚ) / 10)
    ∧ processDHT22 ⟨0, 0, 0x85, 0x01, 0x86⟩
        = Except.ok (-(1281 / 10 : ℚ), 0) := by
  refine ⟨fun s h1 => ?_, fun s h3 hsign => ?_, fun s h3 hsign => ?_, ?_⟩
  · unfold fineHumidity
    rw [shiftLeft8_or_eq s.b0 s.b1 h1]
  · unfold fineTemperature
    rw [if_pos hsign, shiftLeft8_or_eq (s.b2 &&& 0x7F) s.b3 h3]
  · unfold fineTemperature
    rw [if_neg (by simp [hsign]), shiftLeft8_or_eq (s.b2 &&& 0x7F) s.b3 h3]
  · have h1 : ((133 &&& 127) <<< 8 ||| 1 : Nat) = 1281 := by decide
    have h2 : ((0 <<< 8) ||| 0 : Nat) = 0 := by decide
    have h3 : (133 &&& 128 : Nat) = 128 := by decide
    simp only [processDHT22, verifyChecksum, isZeroSample, fineTemperature,
      fineHumidity, h1, h2, h3]
    norm_num

/-- C3 witness: applying the sign-set decode equation at the concrete
sample with temperature bytes `0x85, 0x01`. -/
theorem claim_C3_fine_decode_witness :
    fineTemperature ⟨0, 0, 0x85, 0x01, 0x86⟩
      = -(((256 * (0x85 &&& 0x7F) + 0x01 : Nat) : ℚ) / 10) :=
  claim_C3_fine_decode.2.1 ⟨0, 0, 0x85, 0x01, 0x86⟩ (by decide) (by decide)

/-- C4: the all-zero sample `[0, 0, 0, 0, 0]` passes checksum, yet every
zero sample is rejected with `ZeroSamples` by both read paths, and a full
read whose 40 sampled bits are all zero returns `ZeroSamples`, not
`Success`. -/
theorem claim_C4_zero_samples :
    verifyChecksum ⟨0, 0, 0, 0, 0⟩ = true
    ∧ dht11Read zeroTrace = Except.error SimpleDHTErrZeroSamples
    ∧ dht22Read zeroTrace = Except.error SimpleDHTErrZeroSamples
    ∧ (∀ s : RawSample, isZeroSample s = true →
        processDHT11 s = Except.error SimpleDHTErrZeroSamples
        ∧ processDHT22 s = Except.error SimpleDHTErrZeroSamples) := by
  refine ⟨rfl, rfl, rfl, fun s h => ?_⟩
  simp only [isZeroSample, Bool.and_eq_true, beq_iff_eq] at h
  obtain ⟨⟨⟨⟨h0, h1⟩, h2⟩, h3⟩, h4⟩ := h
  constructor
  · simp [processDHT11, verifyChecksum, isZeroSample, h0, h1, h2, h3, h4]
  · simp [processDHT22, verifyChecksum, isZeroSample, h0, h1, h2, h3, h4]

/-- C4 witness: applying the zero-sample rejection at `[0, 0, 0, 0, 0]`. -/
theorem claim_C4_zero_samples_witness :
    processDHT11 ⟨0, 0, 0, 0, 0⟩ = Except.error SimpleDHTErrZeroSamples :=
  (claim_C4_zero_samples.2.2.2 ⟨0, 0, 0, 0, 0⟩ (by decide)).1

/-- C5: a full coarse read whose pulses encode `[35, 0, 27, 0, 62]`
succeeds with temperature 27 and humidity 35, and in general the coarse
decode of any checksum-valid, non-zero sample is temperature = bytes[2],
humidity = bytes[0], with no sign handling. -/
theorem claim_C5_coarse_decode :
    dht11Read goodTrace = Except.ok (27, 35)
    ∧ (∀ s : RawSample, verifyChecksum s = true → isZeroSample s = false →
        processDHT11 s = Except.ok (s.b2, s.b0)) := by
  refine ⟨rfl, fun s h1 h2 => ?_⟩
  simp [processDHT11, parse, h1, h2]

/-- C5 witness: applying the coarse decode at the concrete sample
`[35, 0, 27, 0, 62]`. -/
theorem claim_C5_coarse_decode_witness :
    processDHT11 ⟨35, 0, 27, 0, 62⟩ = Except.ok (27, 35) :=
  claim_C5_coarse_decode.2 ⟨35, 0, 27, 0, 62⟩ (by decide) (by decide)

/-- C6: the eight outcome codes of src/SimpleDHT.h are pairwise distinct,
and every read attempt — coarse read, coarse fine-accessor and fine read,
each a total function — surfaces exactly one code from that closed set. -/
theorem claim_C6_closed_outcomes :
    outcomeCodes.Nodup
    ∧ (∀ tr : LineTrace, resultCode (dht11Read tr) ∈ outcomeCodes)
    ∧ (∀ tr : LineTrace, resultCode (dht11Read2 tr) ∈ outcomeCodes)
    ∧ (∀ tr : LineTrace, resultCode (dht22Read tr) ∈ outcomeCodes) := by
  refine ⟨by decide, fun tr => dht11Read_code_mem tr, fun tr => ?_,
    fun tr => dht22Read_code_mem tr⟩
  rw [dht11Read2_code_eq]
  exact dht11Read_code_mem tr

/-- C7: after construction with pin `p`, after `setPin(p)`, and after a
pin-override read with `p`, the stored pin is `p` and the cached AVR
descriptors equal `digitalPinToBitMask(p)` and `digitalPinToPort(p)` —
every pin change re-derives them, so they are never stale. -/
theorem claim_C7_pin_cache_coherent :
    ∀ (dbm dpp : Int → Nat) (s : DHTState) (p : Int) (tr : LineTrace),
      (mkSimpleDHT dbm dpp p).pin = p
      ∧ (mkSimpleDHT dbm dpp p).bitmask = dbm p
      ∧ (mkSimpleDHT dbm dpp p).port = dpp p
      ∧ (setPin dbm dpp s p).pin = p
      ∧ (setPin dbm dpp s p).bitmask = dbm p
      ∧ (setPin dbm dpp s p).port = dpp p
      ∧ (readWithPin dbm dpp s p tr).1.pin = p
      ∧ (readWithPin dbm dpp s p tr).1.bitmask = dbm p
      ∧ (readWithPin dbm dpp s p tr).1.port = dpp p :=
  fun _ _ _ _ _ => ⟨rfl, rfl, rfl, rfl, rfl, rfl, rfl, rfl, rfl⟩

/-- C8: there is one fixed threshold, 40 µs: any strictly shorter high
pulse classifies as bit 0, any strictly longer one as bit 1, a pulse of
exactly the threshold deterministically classifies as bit 0, and the
durations 39 and 41 classify to opposite bit values. -/
theorem claim_C8_threshold_split :
    pulseThreshold = 40
    ∧ (∀ t : Nat, t < pulseThreshold → classifyBit t = 0)
    ∧ (∀ t : Nat, pulseThreshold < t → classifyBit t = 1)
    ∧ classifyBit pulseThreshold = 0
    ∧ classifyBit (pulseThreshold - 1) = 0
    ∧ classifyBit (pulseThreshold + 1) = 1 := by
  refine ⟨rfl, fun t ht => ?_, fun t ht => ?_, rfl, rfl, rfl⟩
  · simp only [classifyBit, pulseThreshold] at *
    rw [if_neg (by omega)]
  · simp only [classifyBit, pulseThreshold] at *
    rw [if_pos ht]

/-- C8 witness: the durations one below and one above the threshold
classify to opposite bits. -/
theorem claim_C8_threshold_split_witness :
    classifyBit 39 = 0 ∧ classifyBit 41 = 1 :=
  ⟨claim_C8_threshold_split.2.1 39 (by decide),
   claim_C8_threshold_split.2.2.1 41 (by decide)⟩

/-- C9: every pin-override read or read2 call updates the configured pin
to the override before the attempt, and the resulting state is exactly the
`setPin` state whatever the trace — in particular the pin change persists
on every failing outcome and is never rolled back. -/
theorem claim_C9_pin_update_persists :
    ∀ (dbm dpp : Int → Nat) (s : DHTState) (p : Int) (tr : LineTrace),
      (readWithPin dbm dpp s p tr).1 = setPin dbm dpp s p
      ∧ (read2WithPin11 dbm dpp s p tr).1 = setPin dbm dpp s p
      ∧ (read2WithPin22 dbm dpp s p tr).1 = setPin dbm dpp s p
      ∧ (readWithPin dbm dpp s p tr).1.pin = p
      ∧ (read2WithPin11 dbm dpp s p tr).1.pin = p
      ∧ (read2WithPin22 dbm dpp s p tr).1.pin = p :=
  fun _ _ _ _ _ => ⟨rfl, rfl, rfl, rfl, rfl, rfl⟩

/-- C10: construction and `setPin` accept every `int`, including negative
values, with no validation and no error path (they are total), the stored
pin is the argument verbatim, and the unconfigured default is the sentinel
pin `-1`. -/
theorem claim_C10_no_pin_validation :
    ∀ (dbm dpp : Int → Nat) (s : DHTState) (p : Int),
      (setPin dbm dpp s p).pin = p
      ∧ (mkSimpleDHT dbm dpp p).pin = p
      ∧ defaultDHTState.pin = -1
      ∧ (mkSimpleDHT dbm dpp (-7)).pin = -7
      ∧ (setPin dbm dpp s (-1000)).pin = -1000 :=
  fun _ _ _ _ => ⟨rfl, rfl, rfl, rfl, rfl⟩
